import Mathlib

/-!
Verification of the ISR stub generator (`kernel/arch/i386/genisr.py`).

The generator is a straight-line script: it opens `isr.asm`, writes a
two-line header comment, 32 `global isr<N>` declarations, a section
comment, and then one stub record per vector index 0..31 (indices 0 and 8
are special-cased branches with extra commentary), and closes the file.

The embedding below mirrors each `of.write(...)` call verbatim in
`writes` (one list element per write call, newlines included), and also
gives the resulting document as a list of lines (`outputLines`); the two
views are tied together by `fileContent_as_lines`.  All analysis
functions (push extraction, label extraction, declaration extraction)
work structurally on the character lists of the lines so that every
property is decidable by kernel evaluation.
-/

set_option maxRecDepth 20000

namespace Genisr

/-- `eisr = [8, 10, 11, 12, 13, 14]` from the source: the exception
vectors whose hardware behavior already pushes an error code. -/
def eisr : List Nat := [8, 10, 11, 12, 13, 14]

/-- The strings written by the stub loop for index `i`, one list element
per `of.write` call, mirroring the three branches of the loop body
(`i == 0`, `i == 8`, and the uniform branch with its
`if i not in eisr` dummy push). -/
def stubWrites (i : Nat) : List String :=
  if i = 0 then
    ["\n; Divide by 0\n",
     "    cli ; Disable interrupts\n",
     "    push byte 0 ; push a dummy error code\n",
     "    push byte 0 ; push the isr code\n",
     "    jmp_isr_common_stub\n"]
  else if i = 8 then
    ["\n; Double Fault Exception\n",
     "    cli ; Disable interrupts\n",
     "    ; We don\x27t push a dummy error code since this interrupt comes with one\n",
     "    push byte 0 ; push the isr code\n",
     "    jmp_isr_common_stub\n"]
  else
    ["\n",
     "isr" ++ toString i ++ ":\n",
     "    cli\n"]
    ++ (if i ∈ eisr then [] else ["    push byte 0\n"])
    ++ ["    push byte " ++ toString i ++ "\n",
        "    jmp isr_common_stub\n"]

/-- The two header comment lines, as written (with newlines). -/
def headerWrites : List String :=
  ["; A bunch of Interrupt Service Routines (ISRs)\n",
   "; For info on each ISR see isr.md in Documentation\n"]

/-- The declaration loop's writes: `global isr<i>` for `i` in 0..31. -/
def declWrites : List String :=
  (List.range 32).map (fun i => "global isr" ++ toString i ++ "\n")

/-- The section comment written between declarations and stubs. -/
def sectionWrites : List String := ["\n; ISR definitions\n"]

/-- Every string the script writes to `isr.asm`, in order: the two
header comment lines, the declaration loop, the section comment, and
the stub loop. -/
def writes : List String :=
  headerWrites ++ declWrites ++ sectionWrites
    ++ (List.range 32).flatMap stubWrites

/-- The full generated document, as the concatenation of all writes. -/
def fileContent : String := String.join writes

/-- The lines of the stub record for index `i` (each written string with
its trailing newline stripped; a leading bare newline becomes a blank
separator line). -/
def stubLines (i : Nat) : List String :=
  if i = 0 then
    ["",
     "; Divide by 0",
     "    cli ; Disable interrupts",
     "    push byte 0 ; push a dummy error code",
     "    push byte 0 ; push the isr code",
     "    jmp_isr_common_stub"]
  else if i = 8 then
    ["",
     "; Double Fault Exception",
     "    cli ; Disable interrupts",
     "    ; We don\x27t push a dummy error code since this interrupt comes with one",
     "    push byte 0 ; push the isr code",
     "    jmp_isr_common_stub"]
  else
    ["",
     "isr" ++ toString i ++ ":",
     "    cli"]
    ++ (if i ∈ eisr then [] else ["    push byte 0"])
    ++ ["    push byte " ++ toString i,
        "    jmp isr_common_stub"]

/-- The two header comment lines, as lines. -/
def headerLines : List String :=
  ["; A bunch of Interrupt Service Routines (ISRs)",
   "; For info on each ISR see isr.md in Documentation"]

/-- The declaration block, as lines. -/
def declLines : List String :=
  (List.range 32).map (fun i => "global isr" ++ toString i)

/-- The section comment (a blank separator line then the comment), as lines. -/
def sectionLines : List String := ["", "; ISR definitions"]

/-- The generated document as a list of lines. -/
def outputLines : List String :=
  headerLines ++ declLines ++ sectionLines
    ++ (List.range 32).flatMap stubLines

/-- The 32 stub records of the document, in emission order. -/
def stubRecords : List (List String) := (List.range 32).map stubLines

/-- Newline, as a string constant. -/
def nl : String := "\n"

/-- A list of lines rendered as file content: each line followed by a
newline, all concatenated. -/
def unlines (ls : List String) : String :=
  String.join (ls.map (fun l => l ++ nl))

/-- Numeric value of a list of decimal digit characters. -/
def digitsVal (cs : List Char) : Nat :=
  cs.foldl (fun a c => 10 * a + (c.toNat - 48)) 0

/-- If `l` is a `push byte <n>` instruction line (possibly followed by a
trailing comment), the pushed literal `n`; otherwise `none`. -/
def pushValue? (l : String) : Option Nat :=
  if ("    push byte ").data.isPrefixOf l.data then
    let digits := (l.data.drop 14).takeWhile Char.isDigit
    if digits.isEmpty then none else some (digitsVal digits)
  else none

/-- The sequence of pushed literals in the stub record for index `i`,
in emission order. -/
def pushes (i : Nat) : List Nat := (stubLines i).filterMap pushValue?

/-- If `l` is a `global isr<N>` declaration line, the declared index `N`;
otherwise `none`. -/
def declIndex? (l : String) : Option Nat :=
  if ("global isr").data.isPrefixOf l.data then
    let rest := l.data.drop 10
    if !rest.isEmpty && rest.all Char.isDigit then some (digitsVal rest) else none
  else none

/-- If `l` is a label definition line `isr<N>:`, the labelled index `N`;
otherwise `none`. -/
def labelIndex? (l : String) : Option Nat :=
  if ("isr").data.isPrefixOf l.data then
    let rest := l.data.drop 3
    let digits := rest.takeWhile Char.isDigit
    if !digits.isEmpty && rest == digits ++ (":").data then some (digitsVal digits)
    else none
  else none

/-- The vector index a line of the stub-body block announces: the two
special-cased records are identified by their distinguishing comments,
all other records by their `isr<N>:` label. -/
def stubIndex? (l : String) : Option Nat :=
  if l = "; Divide by 0" then some 0
  else if l = "; Double Fault Exception" then some 8
  else labelIndex? l

/-- Whether `l` is an (indented) line starting with the `jmp` mnemonic. -/
def isJmpLine (l : String) : Bool :=
  ("    jmp").data.isPrefixOf l.data

/-- Whether `l` ends with a colon, i.e. is shaped like a label definition. -/
def endsWithColon (l : String) : Bool :=
  (":").data.isSuffixOf l.data

/-- Whether a list of numbers is strictly ascending. -/
def strictAsc : List Nat → Bool
  | [] => true
  | [_] => true
  | a :: b :: rest => decide (a < b) && strictAsc (b :: rest)

/-- Whether the stub record `r` targets vector `N`: the records carrying
the divide-by-zero and double-fault comments target vectors 0 and 8 via
their special-case literal 0; every other record targets the vector
whose literal it pushes last. -/
def targetsVector (r : List String) (N : Nat) : Bool :=
  if ("; Divide by 0") ∈ r then N == 0
  else if ("; Double Fault Exception") ∈ r then N == 8
  else (r.filterMap pushValue?).getLast? == some N

/-- The character data of an appended string is the appended data. -/
theorem data_append (a b : String) : (a ++ b).data = a.data ++ b.data := rfl

/-- `String.join` distributes over list append. -/
theorem join_append (a b : List String) :
    String.join (a ++ b) = String.join a ++ String.join b := by
  apply String.ext
  simp [String.join_eq, data_append]

/-- `unlines` distributes over list append. -/
theorem unlines_append (a b : List String) :
    unlines (a ++ b) = unlines a ++ unlines b := by
  simp [unlines, join_append]

/-- Per stub: the strings written for index `i` concatenate to exactly
the line view of that stub record, each line with its newline. -/
theorem stub_join : ∀ i, i < 32 →
    String.join (stubWrites i) = unlines (stubLines i) := by decide

/-- The whole stub-body block: writes and line view agree. -/
theorem stubBlock_join :
    String.join ((List.range 32).flatMap stubWrites) =
      unlines ((List.range 32).flatMap stubLines) := by
  have h : ∀ (l : List Nat), (∀ i ∈ l, i < 32) →
      String.join (l.flatMap stubWrites) = unlines (l.flatMap stubLines) := by
    intro l
    induction l with
    | nil => intro _; rfl
    | cons a t ih =>
      intro hl
      rw [List.flatMap_cons, List.flatMap_cons, join_append, unlines_append,
        stub_join a (hl a (by simp)), ih (fun i hi => hl i (by simp [hi]))]
  exact h (List.range 32) (fun i hi => List.mem_range.mp hi)

/-- Header block: writes and line view agree. -/
theorem header_join : String.join headerWrites = unlines headerLines := by decide

/-- Declaration block: writes and line view agree. -/
theorem decl_join : String.join declWrites = unlines declLines := by decide

/-- Section comment: writes and line view agree. -/
theorem section_join : String.join sectionWrites = unlines sectionLines := by decide

/-- The concatenated writes and the line view describe the same
document: joining all written strings equals the lines of
`outputLines`, each followed by a newline. -/
theorem fileContent_as_lines : fileContent = unlines outputLines := by
  rw [fileContent, writes, outputLines, join_append, join_append, join_append,
    unlines_append, unlines_append, unlines_append, stubBlock_join,
    header_join, decl_join, section_join]

/-- Claim C1: for every vector index `N` in [0,31], the pushes of stub
`N` other than the final (vector-number) push are exactly `[0]` — one
dummy error-code push of value 0 — when `N` is not in the EISR set, and
empty when `N` is in the EISR set; the final push is the vector literal
(0 for the special-cased vector 8). -/
theorem dummy_push_iff_not_eisr :
    ∀ N, N < 32 →
      (pushes N).dropLast = (if N ∈ eisr then [] else [0]) ∧
      (pushes N).getLast? = some (if N = 8 then 0 else N) := by decide

/-- Witness for C1 at `N = 5` (not in the EISR set). -/
theorem dummy_push_iff_not_eisr_witness :
    5 < 32 ∧
      ((pushes 5).dropLast = (if 5 ∈ eisr then [] else [0]) ∧
       (pushes 5).getLast? = some (if 5 = 8 then 0 else 5)) :=
  ⟨by decide, dummy_push_iff_not_eisr 5 (by decide)⟩

/-- Claim C2, counterexample: stub 13 (an EISR vector) emits exactly one
explicit push, not two, so the claim that every stub yields exactly two
explicit push operations is false at `N = 13`. -/
theorem two_pushes_fails_at_13 : ¬ ((pushes 13).length = 2) := by decide

/-- Claim C2, amended: for every `N` in [0,31] the pushes of stub `N`
are the dummy error code 0 followed by the vector literal when `N` is
not in the EISR set, and just the vector literal when `N` is in the
EISR set (the literal being 0 for the special-cased vector 8); the
record's final line is the dispatch line (a `jmp` mnemonic, not a
push), so every push precedes it. -/
theorem pushes_shape :
    ∀ N, N < 32 →
      pushes N = (if N ∈ eisr then [] else [0]) ++ [if N = 8 then 0 else N] ∧
      isJmpLine ((stubLines N).getLastD ("")) = true ∧
      pushValue? ((stubLines N).getLastD ("")) = none := by decide

/-- Witness for the amended C2 at `N = 7` (not in the EISR set). -/
theorem pushes_shape_witness :
    7 < 32 ∧
      (pushes 7 = (if 7 ∈ eisr then [] else [0]) ++ [if 7 = 8 then 0 else 7] ∧
       isJmpLine ((stubLines 7).getLastD ("")) = true ∧
       pushValue? ((stubLines 7).getLastD ("")) = none) :=
  ⟨by decide, pushes_shape 7 (by decide)⟩

/-- Claim C3: the stub records for vectors 0 and 8 end in the single
token `jmp_isr_common_stub` (missing space), which is not the jump
instruction `jmp isr_common_stub`; the document nowhere defines
`isr_common_stub`. -/
theorem stub_jump_typo_eval :
    (stubLines 0).getLast? = some ("    jmp_isr_common_stub") ∧
    (stubLines 8).getLast? = some ("    jmp_isr_common_stub") ∧
    ("    jmp_isr_common_stub" : String) ≠ "    jmp isr_common_stub" ∧
    "isr_common_stub:" ∉ outputLines ∧
    "isr_common_stub" ∉ outputLines := by decide

/-- Claim C4, counterexample: the stub record for vector 0 contains no
label line at all (no line ends with a colon), refuting the claim that
every stub record contains a named label. -/
theorem stub0_no_label :
    (stubLines 0).filter endsWithColon = [] ∧
    (stubLines 0).filterMap labelIndex? = [] := by decide

/-- Claim C4, amended: for every `N` in [0,31] other than 0 and 8, the
stub record contains exactly the one label `isr<N>:` (right after the
blank separator), followed by its normalization instructions (`cli` and
the pushes) and ending with the jump to the shared dispatch stub. -/
theorem label_present_nonspecial :
    ∀ N, N < 32 → N ≠ 0 → N ≠ 8 →
      (stubLines N).filterMap labelIndex? = [N] ∧
      (stubLines N)[1]? = some ("isr" ++ toString N ++ ":") ∧
      (stubLines N)[2]? = some ("    cli") ∧
      (stubLines N).getLast? = some ("    jmp isr_common_stub") ∧
      pushes N ≠ [] := by
  intro N hN h0 h8
  interval_cases N
  all_goals first
  | exact absurd rfl h0
  | exact absurd rfl h8
  | decide

/-- Witness for the amended C4 at `N = 20`. -/
theorem label_present_nonspecial_witness :
    (20 < 32 ∧ 20 ≠ 0 ∧ 20 ≠ 8) ∧
      ((stubLines 20).filterMap labelIndex? = [20] ∧
       (stubLines 20)[1]? = some ("isr" ++ toString 20 ++ ":") ∧
       (stubLines 20)[2]? = some ("    cli") ∧
       (stubLines 20).getLast? = some ("    jmp isr_common_stub") ∧
       pushes 20 ≠ []) :=
  ⟨by decide, label_present_nonspecial 20 (by decide) (by decide) (by decide)⟩

/-- Claim C5: for every `N` in [0,31] the document contains exactly one
`global isr<N>` declaration line, and exactly one of the 32 stub
records targets vector `N` (directly by pushing the literal `N`, or via
the special-case literal 0 for the comment-marked records 0 and 8). -/
theorem completeness_decl_and_target :
    ∀ N, N < 32 →
      (outputLines.countP (fun l => l == "global isr" ++ toString N)) = 1 ∧
      (stubRecords.countP (fun r => targetsVector r N)) = 1 := by decide

/-- Witness for C5 at `N = 10`. -/
theorem completeness_decl_and_target_witness :
    10 < 32 ∧
      ((outputLines.countP (fun l => l == "global isr" ++ toString 10)) = 1 ∧
       (stubRecords.countP (fun r => targetsVector r 10)) = 1) :=
  ⟨by decide, completeness_decl_and_target 10 (by decide)⟩

/-- Claim C6: evaluating the generator at vector 8 — the record carries
the double-fault comment, the interrupt-disable line, and exactly one
push, of the literal 0 (no dummy error code); its final line is the
single token `jmp_isr_common_stub`, not a jump to the shared dispatch
stub. -/
theorem stub8_eval :
    stubLines 8 =
      ["",
       "; Double Fault Exception",
       "    cli ; Disable interrupts",
       "    ; We don\x27t push a dummy error code since this interrupt comes with one",
       "    push byte 0 ; push the isr code",
       "    jmp_isr_common_stub"] ∧
    pushes 8 = [0] := by decide

/-- Claim C7: the stub record for vector 13 is the label `isr13:`, the
interrupt-disable `cli`, the single push of the literal 13 (no dummy
error-code push), and the jump to the shared dispatch stub. -/
theorem stub13_scenario :
    stubLines 13 =
      ["", "isr13:", "    cli", "    push byte 13", "    jmp isr_common_stub"] ∧
    pushes 13 = [13] ∧
    (stubLines 13).filterMap labelIndex? = [13] := by decide

/-- Claim C8: the declaration block lists vector indices 0..31 in
strictly ascending order, and the stub-body block likewise lists vector
indices 0..31 in strictly ascending order. -/
theorem ordering_strictly_ascending :
    outputLines.filterMap declIndex? = List.range 32 ∧
    outputLines.filterMap stubIndex? = List.range 32 ∧
    strictAsc (outputLines.filterMap declIndex?) = true ∧
    strictAsc (outputLines.filterMap stubIndex?) = true := by decide

/-- Claim C9: generation is deterministic — the generator takes no
input, so any two runs, each producing the generated document, produce
byte-for-byte identical output. -/
theorem deterministic_output (run1 run2 : String)
    (h1 : run1 = fileContent) (h2 : run2 = fileContent) : run1 = run2 :=
  h1.trans h2.symm

/-- Witness for C9: two concrete runs coincide. -/
theorem deterministic_output_witness : fileContent = fileContent :=
  deterministic_output fileContent fileContent rfl rfl

/-- Claim C10: label definitions `isr<N>:` occur exactly for
`N` in `{1,...,31} \ {8}`, each once and in order; in particular no
`isr0:` or `isr8:` line occurs anywhere, even though `global isr0` and
`global isr8` are declared. -/
theorem labels_exactly_nonspecial :
    outputLines.filterMap labelIndex? =
      [1, 2, 3, 4, 5, 6, 7, 9, 10, 11, 12, 13, 14, 15, 16, 17, 18, 19, 20,
       21, 22, 23, 24, 25, 26, 27, 28, 29, 30, 31] ∧
    "isr0:" ∉ outputLines ∧
    "isr8:" ∉ outputLines ∧
    "global isr0" ∈ outputLines ∧
    "global isr8" ∈ outputLines := by decide

end Genisr
